import Mathlib

/-!
Shallow embedding of the USPTO crawler's multi-source acquisition code.

Each definition below is translated from the repository's TypeScript source:
  * `SimpleUSPTOService` (src/src/services/simple-uspto-service.ts): the
    orchestrating patent/trademark search with Google-Patents parsing and the
    static mock fallback datasets.
  * `SeleniumUSPTOService` (same file, second module): the browser-automation
    adapter with its two targets and its own mock fallback.
  * `USPTOCrawler.deduplicatePatents` / `deduplicateTrademarks` (crawler module).
  * `Crawl4AIService.crawlMultiple` / `identifyUSPTOContent` (delegated
    extraction service).
  * `GooglePatentsAPI.parseResults` / `stripHtml` (google-patents-api-test.js),
    the repository's reference parser for the live Google Patents envelope.

JavaScript-specific behaviour (falsiness of `undefined` and `""`, `||`
fallback chains, `String.prototype.includes`, optional chaining) is modelled
by small explicit helpers.  `toLowerCase`/`toUpperCase`/`trim` are modelled by
character-wise `jsToLower`/`jsToUpper`/`jsTrim` (they agree with the JS
functions on ASCII; every input the theorems evaluate on is ASCII).
-/

namespace USPTO

set_option maxRecDepth 10000

/-- JS `s.includes(sub)`: `sub` occurs contiguously in `s`. -/
def jsIncludes (s sub : String) : Bool :=
  decide (sub.data <:+: s.data)

/-- JS `s.toLowerCase()`, character-wise (agrees with it on ASCII). -/
def jsToLower (s : String) : String :=
  String.mk (s.data.map Char.toLower)

/-- JS `s.toUpperCase()`, character-wise (agrees with it on ASCII). -/
def jsToUpper (s : String) : String :=
  String.mk (s.data.map Char.toUpper)

/-- JS `s.trim()`: strip leading and trailing whitespace. -/
def jsTrim (s : String) : String :=
  String.mk
    (((s.data.dropWhile Char.isWhitespace).reverse.dropWhile Char.isWhitespace).reverse)

/-- JS `x || ''` on a possibly-undefined string field. -/
def jsOrEmpty : Option String → String
  | some s => s
  | none => ""

/-- JS truthiness of a possibly-undefined string: `undefined` and `""` are falsy. -/
def optTruthy : Option String → Bool
  | some s => s != ""
  | none => false

/-- JS `a || b` for strings: `""` is falsy and falls through to `b`. -/
def jsOrS (a b : String) : String :=
  if a = "" then b else a

/-- JS `a || b || c` key chain on two optional string fields, with `''` default
(as used by the deduplication key extractors). -/
def jsKeyChain (a b : Option String) : String :=
  jsOrS (jsOrEmpty a) (jsOrS (jsOrEmpty b) "")

/-- `PatentSearchResult` of simple-uspto-service.ts: every field optional. -/
structure PatentSearchResult where
  patentNumber : Option String := none
  title : Option String := none
  abstract : Option String := none
  inventors : Option (List String) := none
  applicant : Option String := none
  filingDate : Option String := none
  grantDate : Option String := none
  url : Option String := none
deriving DecidableEq, Repr

/-- `TrademarkSearchResult` of simple-uspto-service.ts. -/
structure TrademarkSearchResult where
  serialNumber : Option String := none
  registrationNumber : Option String := none
  mark : Option String := none
  owner : Option String := none
  filingDate : Option String := none
  status : Option String := none
  url : Option String := none
deriving DecidableEq, Repr

/-! ### Static fallback datasets (`SimpleUSPTOService.getMockPatentResults`)

The four literal datasets returned by the mock generator, transcribed from the
source.  Long abstracts are kept verbatim. -/

/-- The AI-themed branch dataset (query mentions "artificial intelligence" or "ai"). -/
def aiMockPatents : List PatentSearchResult :=
  [ { patentNumber := some "US11,521,063",
      title := some "Artificial Intelligence System for Predictive Analysis",
      abstract := some "A system and method for using artificial intelligence and machine learning algorithms to perform predictive analysis on large datasets with improved accuracy and reduced computational requirements.",
      inventors := some ["Sarah Chen", "Michael Rodriguez"],
      applicant := some "DeepMind Technologies Limited",
      filingDate := some "2021-03-15",
      grantDate := some "2022-12-06",
      url := some "https://patents.google.com/patent/US11521063" },
    { patentNumber := some "US11,487,936",
      title := some "Natural Language Processing Using Transformer Architecture",
      abstract := some "Methods and systems for natural language understanding using transformer-based neural networks with attention mechanisms for improved context understanding.",
      inventors := some ["Emily Zhang", "David Kumar"],
      applicant := some "OpenAI, Inc.",
      filingDate := some "2020-09-22",
      grantDate := some "2022-11-01",
      url := some "https://patents.google.com/patent/US11487936" },
    { patentNumber := some "US11,423,678",
      title := some "Computer Vision System for Object Detection",
      abstract := some "An improved computer vision system utilizing convolutional neural networks for real-time object detection and classification in video streams.",
      inventors := some ["James Park", "Lisa Thompson"],
      applicant := some "Google LLC",
      filingDate := some "2021-01-10",
      grantDate := some "2022-08-23",
      url := some "https://patents.google.com/patent/US11423678" } ]

/-- The blockchain-themed branch dataset (query mentions "blockchain" or "crypto"). -/
def blockchainMockPatents : List PatentSearchResult :=
  [ { patentNumber := some "US11,456,789",
      title := some "Blockchain-Based Smart Contract System",
      abstract := some "A distributed ledger system implementing smart contracts with improved gas efficiency and enhanced security features.",
      inventors := some ["Satoshi Yamamoto", "Wei Lin"],
      applicant := some "Ethereum Foundation",
      filingDate := some "2020-11-30",
      grantDate := some "2022-09-15",
      url := some "https://patents.google.com/patent/US11456789" },
    { patentNumber := some "US11,398,234",
      title := some "Cryptocurrency Wallet with Multi-Signature Security",
      abstract := some "A secure cryptocurrency wallet system implementing multi-signature authentication and cold storage capabilities.",
      inventors := some ["Marcus Johnson", "Anna Kowalski"],
      applicant := some "Coinbase Global, Inc.",
      filingDate := some "2021-02-28",
      grantDate := some "2022-07-26",
      url := some "https://patents.google.com/patent/US11398234" } ]

/-- The quantum-themed branch dataset (query mentions "quantum"). -/
def quantumMockPatents : List PatentSearchResult :=
  [ { patentNumber := some "US11,567,890",
      title := some "Quantum Computing Error Correction System",
      abstract := some "Methods for quantum error correction using topological codes to maintain quantum coherence in superconducting qubit systems.",
      inventors := some ["Robert Quantum", "Marie Curie"],
      applicant := some "IBM Corporation",
      filingDate := some "2020-07-15",
      grantDate := some "2023-01-10",
      url := some "https://patents.google.com/patent/US11567890" },
    { patentNumber := some "US11,445,123",
      title := some "Quantum Cryptography Communication System",
      abstract := some "A quantum key distribution system using entangled photons for secure communication channels.",
      inventors := some ["Alice Quantum", "Bob Crypto"],
      applicant := some "Microsoft Technology Licensing, LLC",
      filingDate := some "2021-04-20",
      grantDate := some "2022-09-13",
      url := some "https://patents.google.com/patent/US11445123" } ]

/-- The generic branch dataset, interpolating the query into titles and abstracts. -/
def genericMockPatents (query : String) : List PatentSearchResult :=
  [ { patentNumber := some "US11,234,567",
      title := some ("System and Method for " ++ query),
      abstract := some ("An innovative approach to " ++ query ++ " that provides improved efficiency, scalability, and performance through novel algorithmic techniques."),
      inventors := some ["John Smith", "Jane Doe"],
      applicant := some "Tech Innovations Inc.",
      filingDate := some "2021-06-15",
      grantDate := some "2023-03-20",
      url := some "https://patents.google.com/patent/US11234567" },
    { patentNumber := some "US11,345,678",
      title := some ("Advanced " ++ query ++ " Processing System"),
      abstract := some ("A comprehensive system for processing and analyzing " ++ query ++ " using state-of-the-art techniques and methodologies."),
      inventors := some ["Alice Johnson", "Bob Wilson"],
      applicant := some "Innovation Labs LLC",
      filingDate := some "2020-12-01",
      grantDate := some "2022-11-15",
      url := some "https://patents.google.com/patent/US11345678" },
    { patentNumber := some "US11,456,789",
      title := some (query ++ " Optimization Framework"),
      abstract := some ("A framework for optimizing " ++ query ++ " operations with reduced computational complexity and improved resource utilization."),
      inventors := some ["Charlie Brown", "Diana Prince"],
      applicant := some "Research Corporation",
      filingDate := some "2021-08-30",
      grantDate := some "2023-02-10",
      url := some "https://patents.google.com/patent/US11456789" } ]

/-- `SimpleUSPTOService.getMockPatentResults`: keyword-themed static fallback.
The branch conditions are JS `queryLower.includes(...)` checks in source order. -/
def getMockPatentResults (query : String) : List PatentSearchResult :=
  let queryLower := jsToLower query
  if jsIncludes queryLower "artificial intelligence" || jsIncludes queryLower "ai" then
    aiMockPatents
  else if jsIncludes queryLower "blockchain" || jsIncludes queryLower "crypto" then
    blockchainMockPatents
  else if jsIncludes queryLower "quantum" then
    quantumMockPatents
  else
    genericMockPatents query

/-- `SimpleUSPTOService.getMockTrademarkResults`: two literal records built
from the upper-cased query. -/
def getMockTrademarkResults (query : String) : List TrademarkSearchResult :=
  [ { serialNumber := some "88/123,456",
      registrationNumber := some "5,123,456",
      mark := some (jsToUpper query),
      owner := some "Example Corporation",
      filingDate := some "2023-02-10",
      status := some "REGISTERED",
      url := some "https://tsdr.uspto.gov/#caseNumber=88123456" },
    { serialNumber := some "88/234,567",
      mark := some (jsToUpper query ++ " PLUS"),
      owner := some "Innovation Brands LLC",
      filingDate := some "2023-04-15",
      status := some "PENDING",
      url := some "https://tsdr.uspto.gov/#caseNumber=88234567" } ]

/-- `SimpleUSPTOService.searchTrademarks`: both the normal path and the catch
arm return the mock dataset; no network request ever occurs on this path, so
the embedding is a pure function and `limit` is unused, exactly as in source. -/
def searchTrademarks (query : String) (limit : Nat) : List TrademarkSearchResult :=
  let _ := limit
  getMockTrademarkResults query

/-! ### JSON model for the Google Patents envelope

The service parses `response.data` dynamically; we model the JSON payload
(strings, arrays, objects, and absent/`undefined` values) together with the
JS property access, truthiness and `||` semantics the source relies on. -/

/-- Dynamic JSON-ish value.  `null` stands for both JSON null and JS
`undefined` (an absent property). -/
inductive Json where
  | null : Json
  | str : String → Json
  | arr : List Json → Json
  | obj : List (String × Json) → Json
deriving Inhabited

namespace Json

/-- JS property access `j[k]`: object lookup; `undefined` on anything else
(also the meaning of optional chaining `j?.k`, since `get` of `null` is `null`). -/
def get : Json → String → Json
  | .obj fields, k =>
    match fields.find? (fun p => p.1 == k) with
    | some p => p.2
    | none => .null
  | _, _ => .null

/-- JS truthiness: `undefined` and `""` are falsy; arrays and objects truthy. -/
def truthy : Json → Bool
  | .null => false
  | .str s => s != ""
  | .arr _ => true
  | .obj _ => true

mutual

/-- JS string coercion as it occurs in the source's template literals
(arrays stringify to their comma-joined elements). -/
def toStr : Json → String
  | .null => "undefined"
  | .str s => s
  | .arr xs => String.intercalate "," (toStrList xs)
  | .obj _ => "[object Object]"

/-- String coercion of each element of a JS array. -/
def toStrList : List Json → List String
  | [] => []
  | x :: xs => toStr x :: toStrList xs

end

/-- The elements of a JS array; `none` when the value is not an array (a
`.map`/`.slice`/`.forEach` on it would throw a TypeError). -/
def asArr : Json → Option (List Json)
  | .arr xs => some xs
  | _ => none

/-- JS `x[0]` as used on `assignees[0]`: first array element, first character
of a string, `undefined` otherwise. -/
def idx0 : Json → Json
  | .arr xs => xs.headD .null
  | .str s => if s = "" then .null else .str (s.take 1)
  | _ => .null

end Json

/-- JS `a || b` on dynamic values. -/
def jsOr (a b : Json) : Json :=
  if a.truthy then a else b

/-! ### External-Index Adapter (`SimpleUSPTOService.searchPatentsViaGoogleAPI`) -/

/-- The per-cluster mapper of `searchPatentsViaGoogleAPI` (source lines
170–210).  `none` models a thrown TypeError (`.map` on a non-array), which the
surrounding `try/catch` converts to an overall `[]`. -/
def clusterToPatent (cluster : Json) : Option PatentSearchResult :=
  let result := jsOr (cluster.get "result") (Json.obj [])
  let patentInfo := jsOr (result.get "patent") (Json.obj [])
  let patentNumber :=
    (jsOr (jsOr (patentInfo.get "publication_number") (patentInfo.get "patent_number"))
      (Json.str "N/A")).toStr
  let title := (jsOr ((result.get "title").get "text") (Json.str "Untitled")).toStr
  let abstract :=
    (jsOr ((result.get "snippet").get "text") (Json.str "No abstract available")).toStr
  match (jsOr (patentInfo.get "inventor") (Json.arr [])).asArr with
  | none => none
  | some invs =>
    let inventorNames := invs.map (fun inv => (jsOr (inv.get "name") (Json.str "Unknown")).toStr)
    let assignees := jsOr (patentInfo.get "assignee") (Json.arr [])
    let applicant := (jsOr ((assignees.idx0).get "name") (Json.str "Not Available")).toStr
    let filingDate :=
      (jsOr (jsOr (patentInfo.get "filing_date") (patentInfo.get "application_date"))
        (Json.str "N/A")).toStr
    let grantDate :=
      (jsOr (jsOr (patentInfo.get "grant_date") (patentInfo.get "publication_date"))
        (Json.str "N/A")).toStr
    let url :=
      (jsOr (result.get "link")
        (Json.str ("https://patents.google.com/patent/" ++ patentNumber))).toStr
    some { patentNumber := some patentNumber,
           title := some title,
           abstract := some abstract,
           inventors := some (if inventorNames.length > 0 then inventorNames else ["Not listed"]),
           applicant := some applicant,
           filingDate := some filingDate,
           grantDate := some grantDate,
           url := some url }

/-- The envelope-processing body of `searchPatentsViaGoogleAPI`: guard on
`response.data && response.data.results && response.data.results.cluster`,
then `clusters.slice(0, limit).map(...)`.  Any TypeError inside (non-array
`cluster` or a non-array `inventor` field) is caught and yields `[]`. -/
def parseGoogleResponse (data : Json) (limit : Nat) : List PatentSearchResult :=
  let clusterJ := (data.get "results").get "cluster"
  if data.truthy && (data.get "results").truthy && clusterJ.truthy then
    match clusterJ.asArr with
    | none => []
    | some clusters =>
      let mapped := (clusters.take limit).map clusterToPatent
      if mapped.all Option.isSome then mapped.filterMap id else []
  else []

/-- The guard `!query || query.trim() === ''` of the adapter: a string is
falsy or trims to the empty string exactly when every one of its characters
is whitespace (stated this way to stay kernel-computable). -/
def jsBlank (query : String) : Bool :=
  query.data.all Char.isWhitespace

/-- `SimpleUSPTOService.searchPatentsViaGoogleAPI`, with the network modelled
explicitly: `net` is the transport outcome (`none` = any transport error or
non-2xx, caught by the adapter).  The second component counts HTTP requests
issued.  The guard `!query || query.trim() === ''` (see `jsBlank`)
short-circuits before any request. -/
def searchPatentsViaGoogleAPIT (net : Option Json) (query : String) (limit : Nat) :
    List PatentSearchResult × Nat :=
  if jsBlank query then ([], 0)
  else
    match net with
    | none => ([], 1)
    | some data => (parseGoogleResponse data limit, 1)

/-- Record-list view of the adapter (the value its caller sees). -/
def searchPatentsViaGoogleAPI (net : Option Json) (query : String) (limit : Nat) :
    List PatentSearchResult :=
  (searchPatentsViaGoogleAPIT net query limit).1

/-! ### Orchestrator (`SimpleUSPTOService.searchPatents`)

The Selenium adapter call sits behind `this.useSelenium && this.seleniumService`
(both set together in the constructor) and a `try/catch`; its outcome is a
parameter (`Except`: a thrown error or a returned list).  The Google adapter
call catches internally, so the orchestrator's body is total — the embedding's
plain (non-`Except`) codomain is the source's never-throws behaviour. -/
def searchPatents (useSelenium : Bool)
    (seleniumOutcome : Except String (List PatentSearchResult))
    (net : Option Json) (query : String) (limit : Nat) : List PatentSearchResult :=
  let afterSelenium : Option (List PatentSearchResult) :=
    if useSelenium then
      match seleniumOutcome with
      | .ok rs => if rs.length > 0 then some rs else none
      | .error _ => none
    else none
  match afterSelenium with
  | some rs => rs
  | none =>
    let googleResults := searchPatentsViaGoogleAPI net query limit
    if googleResults.length > 0 then googleResults
    else getMockPatentResults query

/-! ### Browser-Automation Adapter (`SeleniumUSPTOService`)

The DOM is modelled as the per-result-element field texts the extraction loops
read (each `try { ... getText() } catch {}` yields an optional string).  One
element type serves both targets; the Patent-Public-Search loop reads
`number/title/abstract/inventors/dateText`, the Google-Patents loop reads
`number/title/abstract/metaTexts/link`. -/
structure RawPatentElem where
  number : Option String := none
  title : Option String := none
  abstract : Option String := none
  inventors : Option (List String) := none
  dateText : Option String := none
  metaTexts : List String := []
  link : Option String := none
deriving DecidableEq, Repr

/-- One iteration of the Patent-Public-Search extraction loop (source lines
778–832): independent per-field extraction; a found date text containing
"Filed" becomes `filingDate`, any other date text becomes `grantDate`. -/
def extractPublicElem (e : RawPatentElem) : PatentSearchResult :=
  { patentNumber := e.number,
    title := e.title,
    abstract := e.abstract,
    inventors := e.inventors,
    filingDate :=
      match e.dateText with
      | some d => if jsIncludes d "Filed" then some d else none
      | none => none,
    grantDate :=
      match e.dateText with
      | some d => if jsIncludes d "Filed" then none else some d
      | none => none }

/-- One iteration of the Google-Patents extraction loop (source lines
906–956): metadata spans overwrite `filingDate`/`grantDate` in order. -/
def extractGoogleElem (e : RawPatentElem) : PatentSearchResult :=
  let base : PatentSearchResult :=
    { patentNumber := e.number, title := e.title, abstract := e.abstract, url := e.link }
  e.metaTexts.foldl
    (fun p text =>
      if jsIncludes text "Filed" then { p with filingDate := some text }
      else if jsIncludes text "Granted" || jsIncludes text "Published" then
        { p with grantDate := some text }
      else p)
    base

/-- `searchPatentsPublic` result assembly: first `min(length, limit)` elements,
keeping a record only when its patent number or title is truthy. -/
def seleniumExtractPublic (elems : List RawPatentElem) (limit : Nat) :
    List PatentSearchResult :=
  ((elems.take limit).map extractPublicElem).filter
    (fun p => optTruthy p.patentNumber || optTruthy p.title)

/-- `searchGooglePatents` result assembly, same keep-condition. -/
def seleniumExtractGoogle (elems : List RawPatentElem) (limit : Nat) :
    List PatentSearchResult :=
  ((elems.take limit).map extractGoogleElem).filter
    (fun p => optTruthy p.patentNumber || optTruthy p.title)

/-- `SeleniumUSPTOService.getMockResults`: two query-interpolated records,
`.slice(0, limit)`. -/
def seleniumGetMockResults (query : String) (limit : Nat) : List PatentSearchResult :=
  ([ { patentNumber := some "US11,234,567",
       title := some ("System and Method for " ++ query),
       abstract := some ("An innovative approach to " ++ query ++ " using advanced techniques."),
       inventors := some ["John Smith", "Jane Doe"],
       applicant := some "Tech Corp",
       filingDate := some "2023-01-15",
       grantDate := some "2024-06-20",
       url := some "https://patents.google.com/patent/US11234567" },
     { patentNumber := some "US11,345,678",
       title := some (query ++ " Processing Framework"),
       abstract := some ("A comprehensive framework for processing " ++ query ++ " efficiently."),
       inventors := some ["Alice Johnson", "Bob Wilson"],
       applicant := some "Innovation Inc",
       filingDate := some "2023-03-20",
       grantDate := some "2024-08-15",
       url := some "https://patents.google.com/patent/US11345678" } ] :
    List PatentSearchResult).take limit

/-- `SeleniumUSPTOService.searchPatents`: Patent Public Search first, Google
Patents when that yields nothing, and the service's own mock data when both
yield nothing.  The two pages are given as the element lists the extraction
loops would walk (a timed-out wait for a results container is the empty list). -/
def seleniumSearchPatents (publicElems googleElems : List RawPatentElem)
    (query : String) (limit : Nat) : List PatentSearchResult :=
  let results := seleniumExtractPublic publicElems limit
  let results := if results.length = 0 then seleniumExtractGoogle googleElems limit else results
  if results.length = 0 then seleniumGetMockResults query limit else results

/-! ### Result deduplication (`USPTOCrawler`) -/

/-- `PatentResult` of the crawler module. -/
structure PatentResult where
  patentNumber : Option String := none
  applicationNumber : Option String := none
  title : Option String := none
  abstract : Option String := none
  inventors : Option (List String) := none
  applicant : Option String := none
  assignee : Option String := none
  filingDate : Option String := none
  grantDate : Option String := none
  status : Option String := none
  classification : Option (List String) := none
  claims : Option (List String) := none
  url : Option String := none
  pdfUrl : Option String := none
deriving DecidableEq, Repr

/-- `TrademarkResult` of the crawler module. -/
structure TrademarkResult where
  serialNumber : Option String := none
  registrationNumber : Option String := none
  mark : Option String := none
  owner : Option String := none
  filingDate : Option String := none
  registrationDate : Option String := none
  status : Option String := none
  goodsAndServices : Option String := none
  classification : Option (List String) := none
  url : Option String := none
  imageUrl : Option String := none
deriving DecidableEq, Repr

/-- The dedup key of `deduplicatePatents`:
`patent.patentNumber || patent.applicationNumber || ''`. -/
def patentKey (p : PatentResult) : String :=
  jsKeyChain p.patentNumber p.applicationNumber

/-- The dedup key of `deduplicateTrademarks`:
`trademark.serialNumber || trademark.registrationNumber || ''`. -/
def trademarkKey (t : TrademarkResult) : String :=
  jsKeyChain t.serialNumber t.registrationNumber

/-- The `filter`-with-`seen`-set loop common to both dedup functions; `seen`
is the mutable `Set<string>` threaded through the traversal. -/
def dedupSeen {α : Type} (key : α → String) : List α → List String → List α
  | [], _ => []
  | x :: xs, seen =>
    if seen.contains (key x) then dedupSeen key xs seen
    else x :: dedupSeen key xs (key x :: seen)

/-- `USPTOCrawler.deduplicatePatents`. -/
def deduplicatePatents (patents : List PatentResult) : List PatentResult :=
  dedupSeen patentKey patents []

/-- `USPTOCrawler.deduplicateTrademarks`. -/
def deduplicateTrademarks (trademarks : List TrademarkResult) : List TrademarkResult :=
  dedupSeen trademarkKey trademarks []

/-! ### Delegated-Extraction Adapter (`Crawl4AIService`) -/

/-- `CrawlResult` of crawl4ai-service.ts. -/
structure CrawlResult where
  url : String
  title : Option String := none
  content : Option String := none
  markdown : Option String := none
  links : Option (List String) := none
  images : Option (List String) := none
  metadata : Option Json := none
  extractedData : Option Json := none
  success : Bool
  error : Option String := none
deriving Inhabited

/-- `const content = (crawlResult.content || '').toLowerCase()` of
`identifyUSPTOContent`. -/
def contentLC (crawlResult : CrawlResult) : String :=
  jsToLower (jsOrEmpty crawlResult.content)

/-- `const title = (crawlResult.title || '').toLowerCase()` of
`identifyUSPTOContent`. -/
def titleLC (crawlResult : CrawlResult) : String :=
  jsToLower (jsOrEmpty crawlResult.title)

/-- `Crawl4AIService.identifyUSPTOContent`: keyword classification of the
lower-cased `content`/`title` of a first-pass crawl.  Note the source checks
the primary keywords ("patent"/"trademark") in content *or* title but every
secondary keyword ("application", "grant", "registration") and the PTAB
signals in content only. -/
def identifyUSPTOContent (crawlResult : CrawlResult) : String :=
  let content := contentLC crawlResult
  let title := titleLC crawlResult
  if jsIncludes content "patent" || jsIncludes title "patent" then
    if jsIncludes content "application" then "patent-application"
    else if jsIncludes content "grant" then "patent-grant"
    else "patent-general"
  else if jsIncludes content "trademark" || jsIncludes title "trademark" then
    if jsIncludes content "registration" then "trademark-registration"
    else if jsIncludes content "application" then "trademark-application"
    else "trademark-general"
  else if jsIncludes content "ptab" || jsIncludes content "trial and appeal" then
    "ptab-decision"
  else "general"

/-- The batch partition of `crawlMultiple`: `urls.slice(i, i + 5)` for
`i = 0, 5, 10, …`. -/
def chunk5 (urls : List String) : List (List String) :=
  if h : urls.isEmpty then []
  else urls.take 5 :: chunk5 (urls.drop 5)
termination_by urls.length
decreasing_by
  have hne : urls ≠ [] := by simpa [List.isEmpty_iff] using h
  simp only [List.length_drop]
  have h1 : 0 < urls.length := List.length_pos.mpr hne
  omega

/-- `Crawl4AIService.crawlMultiple`: batches of 5, `Promise.all` per batch,
`delay(1000)` between batches (`if (i + batchSize < urls.length)`).  `crawl`
is the per-URL crawl (its `options` argument is the same for every URL); the
second component counts the inter-batch pauses. -/
def crawlMultiple (crawl : String → CrawlResult) (urls : List String) :
    List CrawlResult × Nat :=
  if h : urls.isEmpty then ([], 0)
  else
    let batch := urls.take 5
    let rest := urls.drop 5
    let tail := crawlMultiple crawl rest
    (batch.map crawl ++ tail.1, (if rest.isEmpty then 0 else 1) + tail.2)
termination_by urls.length
decreasing_by
  have hne : urls ≠ [] := by simpa [List.isEmpty_iff] using h
  simp only [List.length_drop]
  have h1 : 0 < urls.length := List.length_pos.mpr hne
  omega

/-! ### Reference envelope parser (`GooglePatentsAPI` in google-patents-api-test.js)

The repository's own working client for the same endpoint: it flattens
`cluster[i].result[j]`, strips HTML from titles/snippets, and documents the
live envelope shape.  `stripHtml` is
`html.replace(/<[^>]*>/g, '').replace(/&hellip;/g, '...').replace(/&[^;]+;/g, ' ').trim()`,
modelled char-by-char with the regexes' leftmost-match, global semantics. -/

/-- Scan to the first `>` and return what follows (`none` when there is no
`>` left, in which case `/<[^>]*>/` cannot match). -/
def dropThroughGt : List Char → Option (List Char)
  | [] => none
  | c :: rest => if c = '>' then some rest else dropThroughGt rest

/-- `dropThroughGt` yields a strictly shorter list. -/
theorem dropThroughGt_length :
    ∀ l l', dropThroughGt l = some l' → l'.length < l.length := by
  intro l
  induction l with
  | nil => intro l' h; simp [dropThroughGt] at h
  | cons c rest ih =>
    intro l' h
    by_cases hc : c = '>'
    · simp [dropThroughGt, hc] at h
      subst h; simp
    · simp [dropThroughGt, hc] at h
      exact Nat.lt_succ_of_lt (ih l' h)

/-- Global `replace(/<[^>]*>/g, '')`.  Structural recursion on a fuel bound
(`fuel ≥ length` always holds at the call sites, and every step strictly
shortens the list, so the fuel is never exhausted). -/
def removeTagsGo : Nat → List Char → List Char
  | _, [] => []
  | 0, l => l
  | fuel + 1, c :: rest =>
    if c = '<' then
      match dropThroughGt rest with
      | some rest' => removeTagsGo fuel rest'
      | none => c :: rest
    else c :: removeTagsGo fuel rest

/-- Global `replace(/<[^>]*>/g, '')`. -/
def removeTags (l : List Char) : List Char :=
  removeTagsGo l.length l

/-- Global `replace(/&hellip;/g, '...')`, fuelled as `removeTagsGo`. -/
def replaceHellipGo : Nat → List Char → List Char
  | _, [] => []
  | 0, l => l
  | fuel + 1, c :: rest =>
    if ("&hellip;".data).isPrefixOf (c :: rest) then
      '.' :: '.' :: '.' :: replaceHellipGo fuel ((c :: rest).drop 8)
    else c :: replaceHellipGo fuel rest

/-- Global `replace(/&hellip;/g, '...')`. -/
def replaceHellip (l : List Char) : List Char :=
  replaceHellipGo l.length l

/-- Scan to the first `;` and return what follows. -/
def findSemi : List Char → Option (List Char)
  | [] => none
  | c :: rest => if c = ';' then some rest else findSemi rest

/-- `findSemi` yields a strictly shorter list. -/
theorem findSemi_length :
    ∀ l l', findSemi l = some l' → l'.length < l.length := by
  intro l
  induction l with
  | nil => intro l' h; simp [findSemi] at h
  | cons c rest ih =>
    intro l' h
    by_cases hc : c = ';'
    · simp [findSemi, hc] at h
      subst h; simp
    · simp [findSemi, hc] at h
      exact Nat.lt_succ_of_lt (ih l' h)

/-- Global `replace(/&[^;]+;/g, ' ')`: an `&` followed by at least one
non-`;` character and then `;` becomes a single space. -/
def replaceEntitiesGo : Nat → List Char → List Char
  | _, [] => []
  | 0, l => l
  | _ + 1, [c] => [c]
  | fuel + 1, c :: d :: rest =>
    if c = '&' then
      if d = ';' then c :: replaceEntitiesGo fuel (d :: rest)
      else
        match findSemi (d :: rest) with
        | some rest' => ' ' :: replaceEntitiesGo fuel rest'
        | none => c :: replaceEntitiesGo fuel (d :: rest)
    else c :: replaceEntitiesGo fuel (d :: rest)

/-- Global `replace(/&[^;]+;/g, ' ')`. -/
def replaceEntities (l : List Char) : List Char :=
  replaceEntitiesGo l.length l

/-- `GooglePatentsAPI.stripHtml` on a string. -/
def stripHtml (html : String) : String :=
  jsTrim (String.mk (replaceEntities (replaceHellip (removeTags html.data))))

/-- `stripHtml` as called on a raw field: `if (!html) return ''` guard, then
the string replaces (every field it is applied to in the envelope is a
string, which `toStr` passes through unchanged). -/
def stripHtmlJ (html : Json) : String :=
  if html.truthy then stripHtml html.toStr else ""

/-- A parsed record of the reference client (`parseResults` push literal).
`id`, `inventor` and `assignee` are stored raw, as in the script. -/
structure RefPatent where
  id : Json
  patentNumber : String
  title : String
  abstract : String
  inventor : Json
  assignee : Json
  filingDate : String
  grantDate : String
  publicationDate : String
  priorityDate : String
  url : String
  pdfUrl : Option String
  thumbnail : Option String

/-- One `result` of a cluster in `parseResults`: pushed only when
`result.patent` is truthy. -/
def refResultToPatent (result : Json) : Option RefPatent :=
  let patent := result.get "patent"
  if patent.truthy then
    some { id := result.get "id",
           patentNumber := (jsOr (patent.get "publication_number") (Json.str "N/A")).toStr,
           title := jsOrS (stripHtmlJ (patent.get "title")) "Untitled",
           abstract := jsOrS (stripHtmlJ (patent.get "snippet")) "No abstract available",
           inventor := jsOr (patent.get "inventor") (Json.str "Not listed"),
           assignee := jsOr (patent.get "assignee") (Json.str "Not listed"),
           filingDate := (jsOr (patent.get "filing_date") (Json.str "N/A")).toStr,
           grantDate := (jsOr (patent.get "grant_date") (Json.str "N/A")).toStr,
           publicationDate := (jsOr (patent.get "publication_date") (Json.str "N/A")).toStr,
           priorityDate := (jsOr (patent.get "priority_date") (Json.str "N/A")).toStr,
           url := "https://patents.google.com/" ++ (result.get "id").toStr,
           pdfUrl :=
             if (patent.get "pdf").truthy then
               some ("https://patents.google.com/" ++ (patent.get "pdf").toStr)
             else none,
           thumbnail :=
             if (patent.get "thumbnail").truthy then
               some ("https://patents.google.com/" ++ (patent.get "thumbnail").toStr)
             else none }
  else none

/-- `GooglePatentsAPI.parseResults`: guard
`if (!data.results || !data.results.cluster) return []`, then
`cluster.forEach(c => c.result.forEach(...))` — a genuine flatten of every
result of every cluster.  `none` models the TypeError a non-array
`cluster`/`result` would raise in the script. -/
def parseResultsRef (data : Json) : Option (List RefPatent) :=
  let clusterJ := (data.get "results").get "cluster"
  if (data.get "results").truthy && clusterJ.truthy then
    match clusterJ.asArr with
    | none => none
    | some clusters =>
      let inner := clusters.map (fun cl => (cl.get "result").asArr)
      if inner.all Option.isSome then
        some ((inner.filterMap id).flatten.filterMap refResultToPatent)
      else none
  else some []

/-! ### Concrete live-shaped envelope (shape documented by
WORKING_API_EXAMPLES.md and parsed by the reference client) -/

/-- One result of a cluster, in the documented live shape:
`{id, patent: {publication_number, title, snippet}}`, title/snippet carrying
markup and entities as the live endpoint returns them. -/
def sampleResult (num title snippet : String) : Json :=
  Json.obj [("id", Json.str ("patent/" ++ num ++ "/en")),
            ("patent", Json.obj
              [("publication_number", Json.str num),
               ("title", Json.str title),
               ("snippet", Json.str snippet)])]

/-- A 2-cluster envelope with two results per cluster, in the live shape
(`results.cluster[i].result[j]`). -/
def sampleGoogleEnvelope : Json :=
  Json.obj [("results", Json.obj [("cluster", Json.arr
    [ Json.obj [("result", Json.arr
        [ sampleResult "US1111111A" "<b>Neural</b> network system" "A &hellip; neural net",
          sampleResult "US2222222B1" "Quantum <i>sensor</i> array" "Robust &amp; compact" ])],
      Json.obj [("result", Json.arr
        [ sampleResult "US3333333C" "Distributed <em>ledger</em>" "Ledger tech",
          sampleResult "US4444444D" "Gene editing tool" "CRISPR" ])] ])])]

/-- The placeholder record the service builds from a live-shaped cluster:
`cluster.result` is an array, so every property lookup on it misses and each
field falls through to its literal default. -/
def untitledGoogleRecord : PatentSearchResult :=
  { patentNumber := some "N/A",
    title := some "Untitled",
    abstract := some "No abstract available",
    inventors := some ["Not listed"],
    applicant := some "Not Available",
    filingDate := some "N/A",
    grantDate := some "N/A",
    url := some "https://patents.google.com/patent/N/A" }

/-! ## Helper lemmas -/

/-- Substring containment is transitive along infixes. -/
theorem jsIncludes_of_infix {s t u : String}
    (h : jsIncludes s t = true) (hu : u.data <:+: t.data) : jsIncludes s u = true := by
  unfold jsIncludes at h ⊢
  exact decide_eq_true (hu.trans (of_decide_eq_true h))

/-- The static fallback generator returns a non-empty list for every query. -/
theorem getMockPatentResults_ne_nil (query : String) : getMockPatentResults query ≠ [] := by
  simp only [getMockPatentResults]
  split_ifs <;>
    simp [aiMockPatents, blockchainMockPatents, quantumMockPatents, genericMockPatents]

/-- The static fallback generator returns at most three records. -/
theorem getMockPatentResults_length_le (query : String) :
    (getMockPatentResults query).length ≤ 3 := by
  simp only [getMockPatentResults]
  split_ifs <;>
    simp [aiMockPatents, blockchainMockPatents, quantumMockPatents, genericMockPatents]

/-- The Google-envelope parser never returns more than `limit` records. -/
theorem parseGoogleResponse_length_le (data : Json) (limit : Nat) :
    (parseGoogleResponse data limit).length ≤ limit := by
  simp only [parseGoogleResponse]
  split_ifs with hg
  · cases hc : ((data.get "results").get "cluster").asArr with
    | none => simp
    | some clusters =>
      simp only
      split_ifs with hall
      · calc (List.filterMap id ((clusters.take limit).map clusterToPatent)).length
            ≤ ((clusters.take limit).map clusterToPatent).length :=
              List.length_filterMap_le _ _
          _ = (clusters.take limit).length := List.length_map _ _
          _ ≤ limit := List.length_take_le _ _
      · simp
  · simp

/-- The External-Index Adapter never returns more than `limit` records. -/
theorem searchPatentsViaGoogleAPI_length_le (net : Option Json) (query : String) (limit : Nat) :
    (searchPatentsViaGoogleAPI net query limit).length ≤ limit := by
  simp only [searchPatentsViaGoogleAPI, searchPatentsViaGoogleAPIT]
  split_ifs
  · simp
  · cases net with
    | none => simp
    | some data => exact parseGoogleResponse_length_le data limit

/-- The dedup loop output is a sublist of its input (stability + kept records
unchanged). -/
theorem dedupSeen_sublist {α : Type} (key : α → String) :
    ∀ (xs : List α) (seen : List String), (dedupSeen key xs seen).Sublist xs := by
  intro xs
  induction xs with
  | nil => intro seen; simp [dedupSeen]
  | cons x xs ih =>
    intro seen
    unfold dedupSeen
    split_ifs with hc
    · exact (ih seen).cons x
    · exact (ih (key x :: seen)).cons₂ x

/-- Key-fibre characterisation of the dedup loop: records whose key is in
`seen` are all dropped; otherwise exactly the first record with each key
survives. -/
theorem dedupSeen_filter {α : Type} (key : α → String) :
    ∀ (xs : List α) (seen : List String) (k : String),
      (dedupSeen key xs seen).filter (fun a => key a == k)
        = if seen.contains k then [] else (xs.filter (fun a => key a == k)).take 1 := by
  intro xs
  induction xs with
  | nil => intro seen k; simp [dedupSeen]
  | cons x xs ih =>
    intro seen k
    unfold dedupSeen
    by_cases hc : seen.contains (key x) = true
    · rw [if_pos hc, ih seen k]
      by_cases hk : seen.contains k = true
      · rw [if_pos hk, if_pos hk]
      · have hxk : (key x == k) = false := by
          cases h : (key x == k) with
          | false => rfl
          | true =>
            exfalso
            have hkk : key x = k := eq_of_beq h
            rw [hkk] at hc
            exact hk hc
        rw [if_neg hk, if_neg hk, List.filter_cons]
        simp [hxk]
    · rw [if_neg hc]
      by_cases hxk : key x = k
      · subst hxk
        have hcf : seen.contains (key x) = false := by
          simpa using hc
        rw [if_neg hc, List.filter_cons, List.filter_cons]
        simp only [beq_self_eq_true, if_true]
        rw [ih (key x :: seen) (key x)]
        have hmem : (key x :: seen).contains (key x) = true := by
          simp [List.contains_cons]
        rw [if_pos hmem]
        simp
      · have hxkb : (key x == k) = false := by
          cases h : (key x == k) with
          | false => rfl
          | true => exact absurd (eq_of_beq h) hxk
        have hkxb : (k == key x) = false := by
          cases h : (k == key x) with
          | false => rfl
          | true => exact absurd (eq_of_beq h).symm hxk
        have hcons : (key x :: seen).contains k = seen.contains k := by
          simp only [List.contains_cons, hkxb, Bool.false_or]
        simp only [List.filter_cons, hxkb, Bool.false_eq_true, if_false,
          ih (key x :: seen) k, hcons]

/-- No record surviving the dedup loop has its key in `seen`. -/
theorem dedupSeen_not_seen {α : Type} (key : α → String) :
    ∀ (xs : List α) (seen : List String) (a : α),
      a ∈ dedupSeen key xs seen → seen.contains (key a) = false := by
  intro xs
  induction xs with
  | nil => intro seen a ha; simp [dedupSeen] at ha
  | cons x xs ih =>
    intro seen a ha
    unfold dedupSeen at ha
    split_ifs at ha with hc
    · exact ih seen a ha
    · rcases List.mem_cons.mp ha with h | h
      · subst h
        simpa using hc
      · have := ih (key x :: seen) a h
        simp only [List.contains_cons, Bool.or_eq_false_iff] at this
        exact this.2

/-- The keys of the dedup loop output are pairwise distinct. -/
theorem dedupSeen_nodup {α : Type} (key : α → String) :
    ∀ (xs : List α) (seen : List String), ((dedupSeen key xs seen).map key).Nodup := by
  intro xs
  induction xs with
  | nil => intro seen; simp [dedupSeen]
  | cons x xs ih =>
    intro seen
    unfold dedupSeen
    split_ifs with hc
    · exact ih seen
    · simp only [List.map_cons, List.nodup_cons]
      refine ⟨?_, ih (key x :: seen)⟩
      intro hmem
      rcases List.mem_map.mp hmem with ⟨a, ha, hak⟩
      have := dedupSeen_not_seen key xs (key x :: seen) a ha
      simp only [List.contains_cons, Bool.or_eq_false_iff] at this
      have hx : (key a == key x) = false := this.1
      rw [hak] at hx
      simp at hx

/-- The batch partition of the empty list is empty. -/
theorem chunk5_nil : chunk5 [] = [] := by
  rw [chunk5]
  simp

/-- The batch partition flattens back to the input list. -/
theorem chunk5_flatten : ∀ (urls : List String), (chunk5 urls).flatten = urls := by
  intro urls
  induction urls using chunk5.induct with
  | case1 x hx =>
    rw [chunk5, dif_pos hx]
    simp [List.isEmpty_iff.mp hx]
  | case2 x hx ih =>
    rw [chunk5, dif_neg hx]
    simp only [List.flatten_cons, ih, List.take_append_drop]

/-- Every batch holds at most 5 URLs. -/
theorem chunk5_bounded : ∀ (urls : List String),
    (chunk5 urls).all (fun b => decide (b.length ≤ 5)) = true := by
  intro urls
  induction urls using chunk5.induct with
  | case1 x hx =>
    rw [chunk5, dif_pos hx]
    rfl
  | case2 x hx ih =>
    rw [chunk5, dif_neg hx, List.all_cons, ih]
    simp [List.length_take_le]

/-- A non-empty URL list has at least one batch. -/
theorem chunk5_length_pos (urls : List String) (h : ¬ urls.isEmpty = true) :
    0 < (chunk5 urls).length := by
  rw [chunk5, dif_neg h]
  simp

/-- The records of `crawlMultiple`: one crawl per URL, input order. -/
theorem crawlMultiple_fst (crawl : String → CrawlResult) :
    ∀ (urls : List String), (crawlMultiple crawl urls).1 = urls.map crawl := by
  intro urls
  induction urls using crawlMultiple.induct crawl with
  | case1 x hx =>
    rw [crawlMultiple, dif_pos hx]
    simp [List.isEmpty_iff.mp hx]
  | case2 x hx rest ih =>
    have ih' : (crawlMultiple crawl (List.drop 5 x)).1 = (List.drop 5 x).map crawl := ih
    rw [crawlMultiple, dif_neg hx]
    show List.map crawl (List.take 5 x) ++ (crawlMultiple crawl (List.drop 5 x)).1
        = List.map crawl x
    rw [ih', ← List.map_append, List.take_append_drop]

/-- The pause counter of `crawlMultiple`: one pause between successive batches. -/
theorem crawlMultiple_snd (crawl : String → CrawlResult) :
    ∀ (urls : List String), (crawlMultiple crawl urls).2 = (chunk5 urls).length - 1 := by
  intro urls
  induction urls using crawlMultiple.induct crawl with
  | case1 x hx =>
    rw [crawlMultiple, dif_pos hx, chunk5, dif_pos hx]
    rfl
  | case2 x hx rest ih =>
    have ih' : (crawlMultiple crawl (List.drop 5 x)).2
        = (chunk5 (List.drop 5 x)).length - 1 := ih
    rw [crawlMultiple, dif_neg hx, chunk5, dif_neg hx]
    show (if (List.drop 5 x).isEmpty = true then 0 else 1)
          + (crawlMultiple crawl (List.drop 5 x)).2
        = (List.take 5 x :: chunk5 (List.drop 5 x)).length - 1
    by_cases hrest : (List.drop 5 x).isEmpty = true
    · have hnil : List.drop 5 x = [] := List.isEmpty_iff.mp hrest
      rw [if_pos hrest, ih', hnil, chunk5_nil]
      simp
    · have hpos := chunk5_length_pos (List.drop 5 x) hrest
      rw [if_neg hrest, ih']
      simp only [List.length_cons]
      omega

/-! ## Claim theorems -/

/-- C10: for every query string and limit, the orchestrator's trademark
search performs no live acquisition: it unconditionally returns exactly the
two synthetic records whose `mark` fields are the upper-cased query and the
upper-cased query followed by `" PLUS"`, regardless of `limit`.  (The
embedding of `searchTrademarks` is pure because the source path issues no
request: both the normal arm and the catch arm return the mock dataset.) -/
theorem C10_trademark_search_static (query : String) (limit : Nat) :
    searchTrademarks query limit = getMockTrademarkResults query ∧
    (searchTrademarks query limit).length = 2 ∧
    (searchTrademarks query limit).map (fun t => t.mark)
      = [some (jsToUpper query), some (jsToUpper query ++ " PLUS")] := by
  refine ⟨rfl, rfl, ?_⟩
  simp [searchTrademarks, getMockTrademarkResults]

/-- C6: a query that is empty or whitespace-only makes the External-Index
Adapter return `[]` immediately with zero network calls (second component of
the instrumented embedding counts HTTP requests). -/
theorem C6_empty_query_no_network (net : Option Json) (query : String) (limit : Nat)
    (h : jsBlank query = true) :
    searchPatentsViaGoogleAPIT net query limit = ([], 0) := by
  simp [searchPatentsViaGoogleAPIT, h]

/-- Witness for C6 at the whitespace-only query `"   "`. -/
theorem C6_empty_query_no_network_witness :
    searchPatentsViaGoogleAPIT (some (Json.obj [])) "   " 20 = ([], 0) :=
  C6_empty_query_no_network (some (Json.obj [])) "   " 20 (by decide)

/-- C9: `crawlMultiple` returns exactly one `CrawlResult` per input URL in
input order; the URLs are partitioned into consecutive batches of at most 5
(`chunk5`), whose per-batch results concatenate to the output, with exactly
one pause between successive batches. -/
theorem C9_crawlMultiple_batched (crawl : String → CrawlResult) (urls : List String) :
    (crawlMultiple crawl urls).1 = urls.map crawl ∧
    (crawlMultiple crawl urls).1 = ((chunk5 urls).map (List.map crawl)).flatten ∧
    (chunk5 urls).all (fun b => decide (b.length ≤ 5)) = true ∧
    (crawlMultiple crawl urls).2 = (chunk5 urls).length - 1 := by
  refine ⟨crawlMultiple_fst crawl urls, ?_, chunk5_bounded urls, crawlMultiple_snd crawl urls⟩
  rw [crawlMultiple_fst crawl urls, ← List.map_flatten, chunk5_flatten]

/-- C3: deduplication keyed on `patentNumber || applicationNumber || ''`
(resp. `serialNumber || registrationNumber || ''`) yields a list whose keys
are pairwise distinct, keeps exactly the first record with each key and drops
all later records with the same key (the key-fibre of the output is the first
element of the key-fibre of the input), and preserves relative order (the
output is a sublist of the input). -/
theorem C3_dedup_first_occurrence_stable :
    (∀ (patents : List PatentResult),
      (deduplicatePatents patents).Sublist patents ∧
      ((deduplicatePatents patents).map patentKey).Nodup ∧
      ∀ k : String,
        (deduplicatePatents patents).filter (fun p => patentKey p == k)
          = ((patents.filter (fun p => patentKey p == k)).take 1)) ∧
    (∀ (trademarks : List TrademarkResult),
      (deduplicateTrademarks trademarks).Sublist trademarks ∧
      ((deduplicateTrademarks trademarks).map trademarkKey).Nodup ∧
      ∀ k : String,
        (deduplicateTrademarks trademarks).filter (fun t => trademarkKey t == k)
          = ((trademarks.filter (fun t => trademarkKey t == k)).take 1)) := by
  constructor
  · intro patents
    refine ⟨dedupSeen_sublist patentKey patents [], dedupSeen_nodup patentKey patents [], ?_⟩
    intro k
    rw [deduplicatePatents, dedupSeen_filter patentKey patents [] k]
    simp
  · intro trademarks
    refine ⟨dedupSeen_sublist trademarkKey trademarks [],
      dedupSeen_nodup trademarkKey trademarks [], ?_⟩
    intro k
    rw [deduplicateTrademarks, dedupSeen_filter trademarkKey trademarks [] k]
    simp

/-- C1: the orchestrator's patent search is total (its embedding returns a
plain list — every adapter error is caught in the source), and when the
browser-automation adapter throws or returns zero records and the
external-index adapter returns zero records, it returns the static fallback
generator's output, which is non-empty, instead of propagating an error. -/
theorem C1_orchestrator_falls_back_never_throws (useSelenium : Bool)
    (seleniumOutcome : Except String (List PatentSearchResult))
    (net : Option Json) (query : String) (limit : Nat)
    (hsel : ∀ rs, seleniumOutcome = Except.ok rs → rs = [])
    (hgoogle : searchPatentsViaGoogleAPI net query limit = []) :
    searchPatents useSelenium seleniumOutcome net query limit
      = getMockPatentResults query ∧
    getMockPatentResults query ≠ [] := by
  refine ⟨?_, getMockPatentResults_ne_nil query⟩
  cases seleniumOutcome with
  | error e => simp [searchPatents, hgoogle]
  | ok rs =>
    have hnil : rs = [] := hsel rs rfl
    subst hnil
    simp [searchPatents, hgoogle]

/-- Witness for C1: browser automation throws, transport to the external
index fails, and the orchestrator returns the (non-empty) fallback records. -/
theorem C1_orchestrator_falls_back_never_throws_witness :
    searchPatents true (Except.error "session crashed") none "smart toaster" 20
      = getMockPatentResults "smart toaster" ∧
    getMockPatentResults "smart toaster" ≠ [] :=
  C1_orchestrator_falls_back_never_throws true (Except.error "session crashed")
    none "smart toaster" 20 (fun _ h => nomatch h) (by rfl)

/-- C2 counterexample: with `limit = 1` and both live adapters producing
nothing, the orchestrator returns the generic fallback dataset of 3 records —
more than `limit` — so `records.length ≤ query.limit` fails on the
static-fallback path. -/
theorem C2_counterexample_fallback_exceeds_limit :
    ¬ ((searchPatents false (Except.error "boom") none "xyzzy" 1).length ≤ 1) := by
  decide

/-- C2 amended: the length bound `≤ limit` holds on the live-adapter paths
(browser automation assumed to honour its own `limit`, as its extraction
loops do), while the static-fallback path returns a fixed dataset of at most
3 records independent of `limit`; hence the overall bound is
`max limit 3`, not `limit`. -/
theorem C2_amended_length_bound (useSelenium : Bool)
    (seleniumOutcome : Except String (List PatentSearchResult))
    (net : Option Json) (query : String) (limit : Nat)
    (hsel : ∀ rs, seleniumOutcome = Except.ok rs → rs.length ≤ limit) :
    (searchPatents useSelenium seleniumOutcome net query limit).length
      ≤ max limit 3 := by
  have hgoogle := searchPatentsViaGoogleAPI_length_le net query limit
  have hmock := getMockPatentResults_length_le query
  cases useSelenium with
  | false =>
    have hlive : searchPatents false seleniumOutcome net query limit
        = (if (searchPatentsViaGoogleAPI net query limit).length > 0
           then searchPatentsViaGoogleAPI net query limit
           else getMockPatentResults query) := by
      simp [searchPatents]
    rw [hlive]
    split_ifs
    · exact le_trans hgoogle (le_max_left _ _)
    · exact le_trans hmock (le_max_right _ _)
  | true =>
    cases seleniumOutcome with
    | error e =>
      have hlive : searchPatents true (Except.error e) net query limit
          = (if (searchPatentsViaGoogleAPI net query limit).length > 0
             then searchPatentsViaGoogleAPI net query limit
             else getMockPatentResults query) := by
        simp [searchPatents]
      rw [hlive]
      split_ifs
      · exact le_trans hgoogle (le_max_left _ _)
      · exact le_trans hmock (le_max_right _ _)
    | ok rs =>
      have hrs : rs.length ≤ limit := hsel rs rfl
      by_cases h1 : rs.length > 0
      · have hsome : searchPatents true (Except.ok rs) net query limit = rs := by
          simp [searchPatents, h1]
        rw [hsome]
        exact le_trans hrs (le_max_left _ _)
      · have hlive : searchPatents true (Except.ok rs) net query limit
            = (if (searchPatentsViaGoogleAPI net query limit).length > 0
               then searchPatentsViaGoogleAPI net query limit
               else getMockPatentResults query) := by
          simp [searchPatents, h1]
        rw [hlive]
        split_ifs
        · exact le_trans hgoogle (le_max_left _ _)
        · exact le_trans hmock (le_max_right _ _)

/-- Witness for the amended C2 bound. -/
theorem C2_amended_length_bound_witness :
    (searchPatents false (Except.ok ([] : List PatentSearchResult)) none "xyzzy" 1).length
      ≤ max 1 3 :=
  C2_amended_length_bound false (Except.ok []) none "xyzzy" 1
    (fun rs h => by cases h; simp)

/-- C4 counterexample: when both target pages yield no result elements, the
browser-automation adapter does not return `[]` — it returns its own mock
dataset, so the orchestrator treats it as a live success instead of falling
through. -/
theorem C4_counterexample_empty_targets_yield_mock :
    seleniumSearchPatents [] [] "gizmo" 20 ≠ [] ∧
    seleniumSearchPatents [] [] "gizmo" 20 = seleniumGetMockResults "gizmo" 20 := by
  exact ⟨by decide, by rfl⟩

/-- C4 amended: when both targets produce no records the adapter never
throws, but instead of an empty list it returns its fixed 2-record mock
dataset sliced to `limit` — non-empty whenever `limit > 0`, so the
orchestrator short-circuits on it rather than falling through. -/
theorem C4_amended_mock_fallback (publicElems googleElems : List RawPatentElem)
    (query : String) (limit : Nat)
    (hp : seleniumExtractPublic publicElems limit = [])
    (hg : seleniumExtractGoogle googleElems limit = []) :
    seleniumSearchPatents publicElems googleElems query limit
      = seleniumGetMockResults query limit ∧
    (0 < limit → seleniumSearchPatents publicElems googleElems query limit ≠ []) := by
  have hmain : seleniumSearchPatents publicElems googleElems query limit
      = seleniumGetMockResults query limit := by
    simp [seleniumSearchPatents, hp, hg]
  refine ⟨hmain, ?_⟩
  intro hlim hnil
  rw [hmain] at hnil
  unfold seleniumGetMockResults at hnil
  cases limit with
  | zero => omega
  | succ n => simp [List.take_succ_cons] at hnil

/-- Witness for the amended C4 behaviour on empty pages. -/
theorem C4_amended_mock_fallback_witness :
    seleniumSearchPatents [] [] "widget" 5 ≠ [] :=
  (C4_amended_mock_fallback [] [] "widget" 5 rfl rfl).2 (by decide)

/-- C8 counterexample: a query containing "blockchain" does *not* return the
blockchain-themed record set — "blockchain" contains the substring "ai", so
the classifier's first branch fires and the AI-themed set is returned. -/
theorem C8_counterexample_blockchain_gets_ai_set :
    getMockPatentResults "blockchain" = aiMockPatents ∧
    getMockPatentResults "blockchain" ≠ blockchainMockPatents := by
  exact ⟨by decide, by decide⟩

/-- C8 amended: the static fallback generator is deterministic (it is a pure
function of the query in the source: no randomness, no mutable state) and
non-empty for every query; but a query containing "blockchain" deterministically
returns the fixed *AI-themed* record set on every invocation, because
"blockchain" contains "ai" and the AI branch is checked first. -/
theorem C8_amended_deterministic_themed (query : String) :
    getMockPatentResults query ≠ [] ∧
    (jsIncludes (jsToLower query) "blockchain" = true →
      getMockPatentResults query = aiMockPatents) := by
  refine ⟨getMockPatentResults_ne_nil query, ?_⟩
  intro h
  have hai : jsIncludes (jsToLower query) "ai" = true :=
    jsIncludes_of_infix h (by decide)
  simp only [getMockPatentResults, hai, Bool.or_true, if_true]

/-- Witness for the amended C8 at a blockchain query. -/
theorem C8_amended_deterministic_themed_witness :
    getMockPatentResults "blockchain ledger voting" = aiMockPatents :=
  (C8_amended_deterministic_themed "blockchain ledger voting").2 (by decide)

/-- C7 counterexample: with title "Patent Application" and content "x", the
lower-cased title+content mentions both "patent" and "application", yet the
classifier returns "patent-general", not "patent-application" — the
secondary keyword is looked up in content only. -/
theorem C7_counterexample_title_keywords_ignored :
    identifyUSPTOContent
      { url := "https://example.test/doc", success := true,
        title := some "Patent Application", content := some "x" }
      = "patent-general" ∧
    jsIncludes (jsToLower "Patent Application" ++ jsToLower "x") "patent" = true ∧
    jsIncludes (jsToLower "Patent Application" ++ jsToLower "x") "application" = true ∧
    ("patent-general" : String) ≠ "patent-application" := by
  exact ⟨by decide, by decide, by decide, by decide⟩

/-- C7 amended: complete characterisation of the classifier.  The primary
keywords "patent"/"trademark" are sought in lower-cased content *or* title;
the secondary keywords ("application", "grant", "registration") and the PTAB
signals are sought in lower-cased content only; priority order is as the
claim states. -/
theorem C7_amended_classifier (r : CrawlResult) :
    (identifyUSPTOContent r = "patent-application" ↔
      ((jsIncludes (contentLC r) "patent" = true ∨ jsIncludes (titleLC r) "patent" = true) ∧
        jsIncludes (contentLC r) "application" = true)) ∧
    (identifyUSPTOContent r = "patent-grant" ↔
      ((jsIncludes (contentLC r) "patent" = true ∨ jsIncludes (titleLC r) "patent" = true) ∧
        jsIncludes (contentLC r) "application" = false ∧
        jsIncludes (contentLC r) "grant" = true)) ∧
    (identifyUSPTOContent r = "patent-general" ↔
      ((jsIncludes (contentLC r) "patent" = true ∨ jsIncludes (titleLC r) "patent" = true) ∧
        jsIncludes (contentLC r) "application" = false ∧
        jsIncludes (contentLC r) "grant" = false)) ∧
    (identifyUSPTOContent r = "trademark-registration" ↔
      (jsIncludes (contentLC r) "patent" = false ∧ jsIncludes (titleLC r) "patent" = false ∧
        (jsIncludes (contentLC r) "trademark" = true ∨ jsIncludes (titleLC r) "trademark" = true) ∧
        jsIncludes (contentLC r) "registration" = true)) ∧
    (identifyUSPTOContent r = "trademark-application" ↔
      (jsIncludes (contentLC r) "patent" = false ∧ jsIncludes (titleLC r) "patent" = false ∧
        (jsIncludes (contentLC r) "trademark" = true ∨ jsIncludes (titleLC r) "trademark" = true) ∧
        jsIncludes (contentLC r) "registration" = false ∧
        jsIncludes (contentLC r) "application" = true)) ∧
    (identifyUSPTOContent r = "trademark-general" ↔
      (jsIncludes (contentLC r) "patent" = false ∧ jsIncludes (titleLC r) "patent" = false ∧
        (jsIncludes (contentLC r) "trademark" = true ∨ jsIncludes (titleLC r) "trademark" = true) ∧
        jsIncludes (contentLC r) "registration" = false ∧
        jsIncludes (contentLC r) "application" = false)) ∧
    (identifyUSPTOContent r = "ptab-decision" ↔
      (jsIncludes (contentLC r) "patent" = false ∧ jsIncludes (titleLC r) "patent" = false ∧
        jsIncludes (contentLC r) "trademark" = false ∧ jsIncludes (titleLC r) "trademark" = false ∧
        (jsIncludes (contentLC r) "ptab" = true ∨
          jsIncludes (contentLC r) "trial and appeal" = true))) ∧
    (identifyUSPTOContent r = "general" ↔
      (jsIncludes (contentLC r) "patent" = false ∧ jsIncludes (titleLC r) "patent" = false ∧
        jsIncludes (contentLC r) "trademark" = false ∧ jsIncludes (titleLC r) "trademark" = false ∧
        jsIncludes (contentLC r) "ptab" = false ∧
        jsIncludes (contentLC r) "trial and appeal" = false)) := by
  cases hcp : jsIncludes (contentLC r) "patent" <;>
    cases htp : jsIncludes (titleLC r) "patent" <;>
      cases hca : jsIncludes (contentLC r) "application" <;>
        cases hcg : jsIncludes (contentLC r) "grant" <;>
          cases hct : jsIncludes (contentLC r) "trademark" <;>
            cases htt : jsIncludes (titleLC r) "trademark" <;>
              cases hcr : jsIncludes (contentLC r) "registration" <;>
                cases hcpt : jsIncludes (contentLC r) "ptab" <;>
                  cases hctaa : jsIncludes (contentLC r) "trial and appeal" <;>
                    simp_all [identifyUSPTOContent]

/-- C5: evaluating the service's envelope parser on a live-shaped 2×2-cluster
envelope with `limit = 3`.  The repository's own reference client
(`parseResultsRef`) flattens all four results and strips markup from their
titles; the service's parser (`parseGoogleResponse`) instead produces one
placeholder record per cluster (2 records, titles "Untitled", not 3 records
with stripped titles), contradicting the claimed flatten-truncate-strip
behaviour. -/
theorem C5_code_bug_live_envelope :
    parseGoogleResponse sampleGoogleEnvelope 3
      = [untitledGoogleRecord, untitledGoogleRecord] ∧
    (parseGoogleResponse sampleGoogleEnvelope 3).length ≠ 3 ∧
    (parseResultsRef sampleGoogleEnvelope).map (fun l => l.map RefPatent.title)
      = some ["Neural network system", "Quantum sensor array",
              "Distributed ledger", "Gene editing tool"] ∧
    (parseResultsRef sampleGoogleEnvelope).map (fun l => l.length) = some 4 := by
  exact ⟨by decide, by decide, by decide, by decide⟩

end USPTO
